import Mathlib

/-!
Shallow embedding of the storagecheck controller (main.go).

The program runs two operations against a Kubernetes namespace:
  - cleanupPreviousChecks: lists pods and persistent-volume claims carrying
    the ownership label "app=storage-check" and deletes each match,
    incrementing a cleanup-success or cleanup-failure counter per delete;
  - doStorageCheck: creates a labeled PVC, then a labeled pod mounting it,
    polls the pod phase until Succeeded or Failed, increments the
    check-success or check-failure counter, observes the duration histogram
    on success only, and deletes (via defer) every resource it created.

The embedding models the contents of the single configured namespace as a
`World` (pods, claims, a fresh-name counter for server-assigned names, the
five metrics, and a log of every delete call issued), and the cluster's
responses as a `Behavior` (which API calls fail, and the sequence of pod
phases observed while polling; `none` in that sequence is a fetch error,
which the source swallows: `p, _ := ...Get(...)` leaves a zero-valued
phase that is neither Succeeded nor Failed).
-/

namespace StorageCheck

/-- Kind of a probe resource: pod or persistent-volume claim. -/
inductive ResKind where
  | pod
  | claim
deriving DecidableEq

/-- A cluster resource as the controller sees it: a server-assigned name and
its labels (main.go only ever reads the name and matches on labels). -/
structure Resource where
  name : Nat
  labels : List (String × String)
deriving DecidableEq

/-- Pod phases (k8s.io/api/core/v1 PodPhase). -/
inductive PodPhase where
  | pending
  | running
  | succeeded
  | failed
  | unknown
deriving DecidableEq

/-- The five registered metrics (main.go lines 29-61): four monotonic
counters and the sample count of the duration histogram. -/
structure Metrics where
  checkSuccess : Nat
  checkFailure : Nat
  cleanupSuccess : Nat
  cleanupFailure : Nat
  durationCount : Nat
deriving DecidableEq

/-- Contents of the configured namespace plus the process metrics and a log
of every delete call issued to the API (appended whether or not the delete
succeeds). `nextName` models the server assigning fresh names via
GenerateName. -/
structure World where
  pods : List Resource
  claims : List Resource
  nextName : Nat
  metrics : Metrics
  deleteLog : List (ResKind × Nat)
deriving DecidableEq

/-- Cluster behavior: which API calls fail, per call site (deletes fail per
resource name), and the sequence of poll observations for the pod phase
(`none` is a fetch error). -/
structure Behavior where
  createClaimFails : Bool
  createPodFails : Bool
  deletePodFails : Nat → Bool
  deleteClaimFails : Nat → Bool
  listPodsFails : Bool
  listClaimsFails : Bool
  pollObs : List (Option PodPhase)

/-- The label selector "app=storage-check" used by cleanupPreviousChecks
(main.go lines 153 and 171). -/
def cleanupSelector : String × String := ("app", "storage-check")

/-- A resource matches a key=value label selector when its labels carry that
exact pair. -/
def matchesLabel (sel : String × String) (r : Resource) : Bool :=
  r.labels.any (fun p => p.1 == sel.1 && p.2 == sel.2)

/-- PVC spec as built at main.go lines 199-215. -/
structure PVCSpec where
  generateName : String
  labels : List (String × String)
  accessModes : List String
  requestStorage : String
  storageClassName : String
deriving DecidableEq

/-- The claim spec doStorageCheck submits (main.go lines 199-215). -/
def pvcSpec (storageClass : String) : PVCSpec :=
  { generateName := "storage-check-pvc-"
  , labels := [("app", "storage-check")]
  , accessModes := ["ReadWriteOnce"]
  , requestStorage := "1Gi"
  , storageClassName := storageClass }

/-- Pod spec as built at main.go lines 225-306 (fields the model tracks). -/
structure PodSpec where
  generateName : String
  labels : List (String × String)
  image : String
  command : List String
  restartPolicy : String
  claimName : Nat
deriving DecidableEq

/-- The pod spec doStorageCheck submits (main.go lines 225-306): single
container running the probe command against the mounted claim. -/
def podSpec (image : String) (claimName : Nat) : PodSpec :=
  { generateName := "storage-check-pod-"
  , labels := [("app", "storage-check")]
  , image := image
  , command := ["sh", "-c", "echo hello > /mnt/testfile && cat /mnt/testfile"]
  , restartPolicy := "Never"
  , claimName := claimName }

/-- Client facade: PersistentVolumeClaims(namespace).Create. On success the
server assigns a fresh name and stores the resource with the labels of the
submitted spec. -/
def createPVC (b : Behavior) (w : World) (spec : PVCSpec) : Option (Nat × World) :=
  if b.createClaimFails then none
  else some (w.nextName,
    { w with claims := w.claims ++ [⟨w.nextName, spec.labels⟩]
           , nextName := w.nextName + 1 })

/-- Client facade: Pods(namespace).Create. -/
def createPod (b : Behavior) (w : World) (spec : PodSpec) : Option (Nat × World) :=
  if b.createPodFails then none
  else some (w.nextName,
    { w with pods := w.pods ++ [⟨w.nextName, spec.labels⟩]
           , nextName := w.nextName + 1 })

/-- Client facade: Pods(namespace).Delete. The call is logged whether or not
it succeeds; on success every resource with that name is removed. Returns
the new world and whether the delete succeeded (err == nil). -/
def deletePod (b : Behavior) (w : World) (name : Nat) : World × Bool :=
  if b.deletePodFails name then
    ({ w with deleteLog := w.deleteLog ++ [(ResKind.pod, name)] }, false)
  else
    ({ w with pods := w.pods.filter (fun r => r.name != name)
            , deleteLog := w.deleteLog ++ [(ResKind.pod, name)] }, true)

/-- Client facade: PersistentVolumeClaims(namespace).Delete. -/
def deletePVC (b : Behavior) (w : World) (name : Nat) : World × Bool :=
  if b.deleteClaimFails name then
    ({ w with deleteLog := w.deleteLog ++ [(ResKind.claim, name)] }, false)
  else
    ({ w with claims := w.claims.filter (fun r => r.name != name)
            , deleteLog := w.deleteLog ++ [(ResKind.claim, name)] }, true)

/-- Client facade: Pods(namespace).List with a label selector; `none` is a
list error. -/
def listPods (b : Behavior) (w : World) : Option (List Resource) :=
  if b.listPodsFails then none
  else some (w.pods.filter (matchesLabel cleanupSelector))

/-- Client facade: PersistentVolumeClaims(namespace).List with a label
selector. -/
def listClaims (b : Behavior) (w : World) : Option (List Resource) :=
  if b.listClaimsFails then none
  else some (w.claims.filter (matchesLabel cleanupSelector))

/-- checkSuccess.Inc() (main.go line 321). -/
def incCheckSuccess (w : World) : World :=
  { w with metrics := { w.metrics with checkSuccess := w.metrics.checkSuccess + 1 } }

/-- checkFailure.Inc() (main.go lines 220, 311, 326). -/
def incCheckFailure (w : World) : World :=
  { w with metrics := { w.metrics with checkFailure := w.metrics.checkFailure + 1 } }

/-- cleanupSuccess.Inc() (main.go lines 164, 182). -/
def incCleanupSuccess (w : World) : World :=
  { w with metrics := { w.metrics with cleanupSuccess := w.metrics.cleanupSuccess + 1 } }

/-- cleanupFailure.Inc() (main.go lines 161, 179). -/
def incCleanupFailure (w : World) : World :=
  { w with metrics := { w.metrics with cleanupFailure := w.metrics.cleanupFailure + 1 } }

/-- checkDuration.Observe(...) (main.go line 322): one histogram sample. -/
def observeDuration (w : World) : World :=
  { w with metrics := { w.metrics with durationCount := w.metrics.durationCount + 1 } }

/-- The pod-deletion loop of cleanupPreviousChecks (main.go lines 157-166):
delete each listed pod; a failing delete increments cleanupFailure, a
successful one increments cleanupSuccess; no short-circuit. -/
def deletePodsLoop (b : Behavior) (w : World) : List Resource → World
  | [] => w
  | r :: rest =>
    let res := deletePod b w r.name
    let w2 := if res.2 then incCleanupSuccess res.1 else incCleanupFailure res.1
    deletePodsLoop b w2 rest

/-- The PVC-deletion loop of cleanupPreviousChecks (main.go lines 175-184). -/
def deletePVCsLoop (b : Behavior) (w : World) : List Resource → World
  | [] => w
  | r :: rest =>
    let res := deletePVC b w r.name
    let w2 := if res.2 then incCleanupSuccess res.1 else incCleanupFailure res.1
    deletePVCsLoop b w2 rest

/-- First half of cleanupPreviousChecks (main.go lines 152-167): list pods by
the selector; on a list error (or an empty list, which the loop handles
identically) do nothing, otherwise run the deletion loop over the matches. -/
def sweepPods (b : Behavior) (w : World) : World :=
  match listPods b w with
  | none => w
  | some items => deletePodsLoop b w items

/-- Second half of cleanupPreviousChecks (main.go lines 170-185). -/
def sweepClaims (b : Behavior) (w : World) : World :=
  match listClaims b w with
  | none => w
  | some items => deletePVCsLoop b w items

/-- cleanupPreviousChecks (main.go lines 146-186): sweep pods, then claims. -/
def cleanupPreviousChecks (b : Behavior) (w : World) : World :=
  sweepClaims b (sweepPods b w)

/-- Outcome classification of one doStorageCheck run, by exit path. -/
inductive Outcome where
  | claimFailed
  | podCreateFailed
  | podFailed
  | podSucceeded
deriving DecidableEq

/-- The poll loop of doStorageCheck (main.go lines 317-330): walk the
observation sequence; a fetch error (`none`) or a non-terminal phase
continues polling; stop at the first Succeeded (`some true`) or Failed
(`some false`). Returns `none` when the sequence runs out without a
terminal phase, i.e. the cycle never completes. -/
def pollTerminal : List (Option PodPhase) → Option Bool
  | [] => none
  | o :: rest =>
    match o with
    | some PodPhase.succeeded => some true
    | some PodPhase.failed => some false
    | _ => pollTerminal rest

/-- doStorageCheck (main.go lines 188-331). Returns `none` when the poll
loop never observes a terminal phase (the cycle does not complete);
otherwise the outcome and the resulting world. Deferred deletes run in LIFO
order on every return path after the corresponding create succeeded. -/
def doStorageCheck (b : Behavior) (storageClass : String) (image : String)
    (w : World) : Option (Outcome × World) :=
  match createPVC b w (pvcSpec storageClass) with
  | none => some (Outcome.claimFailed, incCheckFailure w)
  | some (claimName, w1) =>
    match createPod b w1 (podSpec image claimName) with
    | none =>
      some (Outcome.podCreateFailed, (deletePVC b (incCheckFailure w1) claimName).1)
    | some (podName, w2) =>
      match pollTerminal b.pollObs with
      | none => none
      | some true =>
        let w3 := observeDuration (incCheckSuccess w2)
        some (Outcome.podSucceeded, (deletePVC b (deletePod b w3 podName).1 claimName).1)
      | some false =>
        let w3 := incCheckFailure w2
        some (Outcome.podFailed, (deletePVC b (deletePod b w3 podName).1 claimName).1)

/-! Basic facts about the client facade: deletes never touch the metrics,
and each delete touches only its own resource kind. -/

@[simp] theorem deletePod_fst_metrics (b : Behavior) (w : World) (n : Nat) :
    ((deletePod b w n).1).metrics = w.metrics := by
  unfold deletePod; split <;> rfl

@[simp] theorem deletePod_fst_claims (b : Behavior) (w : World) (n : Nat) :
    ((deletePod b w n).1).claims = w.claims := by
  unfold deletePod; split <;> rfl

@[simp] theorem deletePod_fst_nextName (b : Behavior) (w : World) (n : Nat) :
    ((deletePod b w n).1).nextName = w.nextName := by
  unfold deletePod; split <;> rfl

@[simp] theorem deletePod_fst_deleteLog (b : Behavior) (w : World) (n : Nat) :
    ((deletePod b w n).1).deleteLog = w.deleteLog ++ [(ResKind.pod, n)] := by
  unfold deletePod; split <;> rfl

@[simp] theorem deletePVC_fst_metrics (b : Behavior) (w : World) (n : Nat) :
    ((deletePVC b w n).1).metrics = w.metrics := by
  unfold deletePVC; split <;> rfl

@[simp] theorem deletePVC_fst_pods (b : Behavior) (w : World) (n : Nat) :
    ((deletePVC b w n).1).pods = w.pods := by
  unfold deletePVC; split <;> rfl

@[simp] theorem deletePVC_fst_nextName (b : Behavior) (w : World) (n : Nat) :
    ((deletePVC b w n).1).nextName = w.nextName := by
  unfold deletePVC; split <;> rfl

@[simp] theorem deletePVC_fst_deleteLog (b : Behavior) (w : World) (n : Nat) :
    ((deletePVC b w n).1).deleteLog = w.deleteLog ++ [(ResKind.claim, n)] := by
  unfold deletePVC; split <;> rfl

theorem deletePod_fst_pods_of_ok (b : Behavior) (w : World) (n : Nat)
    (h : b.deletePodFails n = false) :
    ((deletePod b w n).1).pods = w.pods.filter (fun r => r.name != n) := by
  unfold deletePod; rw [h]; simp

theorem deletePVC_fst_claims_of_ok (b : Behavior) (w : World) (n : Nat)
    (h : b.deleteClaimFails n = false) :
    ((deletePVC b w n).1).claims = w.claims.filter (fun r => r.name != n) := by
  unfold deletePVC; rw [h]; simp

/-! Concrete fixtures used by the witness and counterexample theorems. -/

/-- Zeroed metrics. -/
def m0 : Metrics :=
  { checkSuccess := 0
  , checkFailure := 0
  , cleanupSuccess := 0
  , cleanupFailure := 0
  , durationCount := 0 }

/-- An empty namespace with zeroed metrics. -/
def w0 : World :=
  { pods := []
  , claims := []
  , nextName := 0
  , metrics := m0
  , deleteLog := [] }

/-- A fully cooperative cluster whose probe pod succeeds after one
non-terminal observation and one swallowed fetch error. -/
def bOK : Behavior :=
  { createClaimFails := false
  , createPodFails := false
  , deletePodFails := fun _ => false
  , deleteClaimFails := fun _ => false
  , listPodsFails := false
  , listClaimsFails := false
  , pollObs := [some PodPhase.pending, none, some PodPhase.succeeded] }

/-- The world a successful probe cycle leaves behind, starting from `w0`. -/
def wOKres : World :=
  ((doStorageCheck bOK "sc" "img" w0).getD (Outcome.claimFailed, w0)).2

/-- The world after the claim create succeeded (main.go line 217): the claim
is stored under the fresh server name with the submitted labels. -/
def wAfterClaim (sc : String) (w : World) : World :=
  { w with claims := w.claims ++ [Resource.mk w.nextName (pvcSpec sc).labels]
         , nextName := w.nextName + 1 }

/-- The world after the pod create succeeded (main.go line 308). -/
def wAfterPod (img : String) (claimName : Nat) (w1 : World) : World :=
  { w1 with pods := w1.pods ++ [⟨w1.nextName, (podSpec img claimName).labels⟩]
          , nextName := w1.nextName + 1 }

/-- Exhaustive characterization of the exit paths of doStorageCheck: which
branch was taken, and the exact resulting world on each. -/
theorem doStorageCheck_shape (b : Behavior) (sc img : String) (w : World)
    (o : Outcome) (w2 : World)
    (h : doStorageCheck b sc img w = some (o, w2)) :
    (o = Outcome.claimFailed ∧ b.createClaimFails = true ∧
      w2 = incCheckFailure w) ∨
    (o = Outcome.podCreateFailed ∧ b.createClaimFails = false ∧
      b.createPodFails = true ∧
      w2 = (deletePVC b (incCheckFailure (wAfterClaim sc w)) w.nextName).1) ∨
    (o = Outcome.podSucceeded ∧ b.createClaimFails = false ∧
      b.createPodFails = false ∧ pollTerminal b.pollObs = some true ∧
      w2 = (deletePVC b (deletePod b
              (observeDuration (incCheckSuccess
                (wAfterPod img w.nextName (wAfterClaim sc w))))
              (w.nextName + 1)).1 w.nextName).1) ∨
    (o = Outcome.podFailed ∧ b.createClaimFails = false ∧
      b.createPodFails = false ∧ pollTerminal b.pollObs = some false ∧
      w2 = (deletePVC b (deletePod b
              (incCheckFailure (wAfterPod img w.nextName (wAfterClaim sc w)))
              (w.nextName + 1)).1 w.nextName).1) := by
  unfold doStorageCheck at h
  cases hcc : b.createClaimFails with
  | true =>
    simp [createPVC, hcc] at h
    exact Or.inl ⟨h.1.symm, rfl, h.2.symm⟩
  | false =>
    simp only [createPVC, hcc, Bool.false_eq_true, if_false] at h
    cases hcp : b.createPodFails with
    | true =>
      simp [createPod, hcp] at h
      refine Or.inr (Or.inl ⟨h.1.symm, rfl, rfl, ?_⟩)
      rw [← h.2]
      rfl
    | false =>
      simp only [createPod, hcp, Bool.false_eq_true, if_false] at h
      cases hpt : pollTerminal b.pollObs with
      | none => simp [hpt] at h
      | some tv =>
        cases tv with
        | true =>
          simp [hpt] at h
          refine Or.inr (Or.inr (Or.inl ⟨h.1.symm, rfl, rfl, rfl, ?_⟩))
          rw [← h.2]
          rfl
        | false =>
          simp [hpt] at h
          refine Or.inr (Or.inr (Or.inr ⟨h.1.symm, rfl, rfl, rfl, ?_⟩))
          rw [← h.2]
          rfl

/-- C1: every completed doStorageCheck run increments exactly one of the
check-success and check-failure counters by exactly 1 and leaves the other
unchanged, on every exit path. -/
theorem doStorageCheck_one_outcome (b : Behavior) (sc img : String) (w : World)
    (o : Outcome) (w2 : World)
    (h : doStorageCheck b sc img w = some (o, w2)) :
    (w2.metrics.checkSuccess = w.metrics.checkSuccess + 1 ∧
      w2.metrics.checkFailure = w.metrics.checkFailure) ∨
    (w2.metrics.checkFailure = w.metrics.checkFailure + 1 ∧
      w2.metrics.checkSuccess = w.metrics.checkSuccess) := by
  unfold doStorageCheck at h
  cases hcc : b.createClaimFails with
  | true =>
    simp [createPVC, hcc] at h
    obtain ⟨-, h2⟩ := h
    subst h2
    right
    simp [incCheckFailure]
  | false =>
    simp only [createPVC, hcc, Bool.false_eq_true, if_false] at h
    cases hcp : b.createPodFails with
    | true =>
      simp [createPod, hcp] at h
      obtain ⟨-, h2⟩ := h
      subst h2
      right
      simp [incCheckFailure]
    | false =>
      simp only [createPod, hcp, Bool.false_eq_true, if_false] at h
      cases hpt : pollTerminal b.pollObs with
      | none => simp [hpt] at h
      | some tv =>
        cases tv with
        | true =>
          simp [hpt] at h
          obtain ⟨-, h2⟩ := h
          subst h2
          left
          simp [observeDuration, incCheckSuccess]
        | false =>
          simp [hpt] at h
          obtain ⟨-, h2⟩ := h
          subst h2
          right
          simp [incCheckFailure]

/-- Witness for C1 at a concrete successful cycle. -/
theorem doStorageCheck_one_outcome_witness :
    (wOKres.metrics.checkSuccess = w0.metrics.checkSuccess + 1 ∧
      wOKres.metrics.checkFailure = w0.metrics.checkFailure) ∨
    (wOKres.metrics.checkFailure = w0.metrics.checkFailure + 1 ∧
      wOKres.metrics.checkSuccess = w0.metrics.checkSuccess) :=
  doStorageCheck_one_outcome bOK "sc" "img" w0 Outcome.podSucceeded wOKres (by decide)

/-- C6: the duration histogram receives a sample exactly when the cycle ends
with pod phase Succeeded, and no sample on any other exit path. -/
theorem checkDuration_only_on_success (b : Behavior) (sc img : String)
    (w : World) (o : Outcome) (w2 : World)
    (h : doStorageCheck b sc img w = some (o, w2)) :
    w2.metrics.durationCount =
      w.metrics.durationCount + (if o = Outcome.podSucceeded then 1 else 0) := by
  rcases doStorageCheck_shape b sc img w o w2 h with
      ⟨ho, -, hw⟩ | ⟨ho, -, -, hw⟩ | ⟨ho, -, -, -, hw⟩ | ⟨ho, -, -, -, hw⟩ <;>
    subst ho <;> subst hw <;>
    simp [incCheckFailure, incCheckSuccess, observeDuration, wAfterClaim, wAfterPod]

/-- Witness for C6 at a concrete successful cycle. -/
theorem checkDuration_only_on_success_witness :
    wOKres.metrics.durationCount =
      w0.metrics.durationCount +
        (if Outcome.podSucceeded = Outcome.podSucceeded then 1 else 0) :=
  checkDuration_only_on_success bOK "sc" "img" w0 Outcome.podSucceeded wOKres
    (by decide)

/-- C7: when claim creation fails, the cycle records exactly one check
failure and returns at once: the namespace is untouched (in particular no
pod is ever created), no delete call is issued, and only the check-failure
counter moves. -/
theorem claim_failure_stops_cycle (b : Behavior) (sc img : String) (w : World)
    (h : b.createClaimFails = true) :
    doStorageCheck b sc img w = some (Outcome.claimFailed, incCheckFailure w) ∧
    (incCheckFailure w).pods = w.pods ∧
    (incCheckFailure w).claims = w.claims ∧
    (incCheckFailure w).deleteLog = w.deleteLog ∧
    (incCheckFailure w).metrics.checkFailure = w.metrics.checkFailure + 1 ∧
    (incCheckFailure w).metrics.checkSuccess = w.metrics.checkSuccess ∧
    (incCheckFailure w).metrics.durationCount = w.metrics.durationCount := by
  refine ⟨?_, rfl, rfl, rfl, rfl, rfl, rfl⟩
  simp [doStorageCheck, createPVC, h]

/-- A cluster that rejects the claim create call. -/
def bClaimFail : Behavior := { bOK with createClaimFails := true }

/-- Witness for C7 at a concrete rejected claim. -/
theorem claim_failure_stops_cycle_witness :
    doStorageCheck bClaimFail "sc" "img" w0 =
      some (Outcome.claimFailed, incCheckFailure w0) ∧
    (incCheckFailure w0).pods = w0.pods ∧
    (incCheckFailure w0).claims = w0.claims ∧
    (incCheckFailure w0).deleteLog = w0.deleteLog ∧
    (incCheckFailure w0).metrics.checkFailure = w0.metrics.checkFailure + 1 ∧
    (incCheckFailure w0).metrics.checkSuccess = w0.metrics.checkSuccess ∧
    (incCheckFailure w0).metrics.durationCount = w0.metrics.durationCount :=
  claim_failure_stops_cycle bClaimFail "sc" "img" w0 (by decide)

/-- The poll loop skips every leading observation that is a fetch error or a
non-terminal phase. -/
theorem pollTerminal_append (obs rest : List (Option PodPhase))
    (hobs : ∀ o ∈ obs, o ≠ some PodPhase.succeeded ∧ o ≠ some PodPhase.failed) :
    pollTerminal (obs ++ rest) = pollTerminal rest := by
  induction obs with
  | nil => rfl
  | cons o obs ih =>
    have ho := hobs o (List.mem_cons_self o obs)
    have htail : ∀ x ∈ obs, x ≠ some PodPhase.succeeded ∧ x ≠ some PodPhase.failed :=
      fun x hx => hobs x (List.mem_cons_of_mem o hx)
    rw [List.cons_append]
    cases o with
    | none => exact ih htail
    | some ph =>
      cases ph with
      | pending => exact ih htail
      | running => exact ih htail
      | unknown => exact ih htail
      | succeeded => exact absurd rfl ho.1
      | failed => exact absurd rfl ho.2

theorem createPVC_set_pollObs (b : Behavior) (l : List (Option PodPhase))
    (w : World) (s : PVCSpec) :
    createPVC { b with pollObs := l } w s = createPVC b w s := rfl

theorem createPod_set_pollObs (b : Behavior) (l : List (Option PodPhase))
    (w : World) (s : PodSpec) :
    createPod { b with pollObs := l } w s = createPod b w s := rfl

theorem deletePod_set_pollObs (b : Behavior) (l : List (Option PodPhase))
    (w : World) (n : Nat) :
    deletePod { b with pollObs := l } w n = deletePod b w n := rfl

theorem deletePVC_set_pollObs (b : Behavior) (l : List (Option PodPhase))
    (w : World) (n : Nat) :
    deletePVC { b with pollObs := l } w n = deletePVC b w n := rfl

/-- C8: prepending any stretch of fetch errors and non-terminal phases
(Pending, Running, Unknown) to the poll observations changes nothing about
the cycle: same outcome, same counters, same histogram, same cluster state
— the counters move only once a terminal phase is observed, and a poll
fetch error never terminates the cycle. -/
theorem poll_nonterminal_swallowed (b : Behavior) (sc img : String) (w : World)
    (obs : List (Option PodPhase))
    (hobs : ∀ o ∈ obs, o ≠ some PodPhase.succeeded ∧ o ≠ some PodPhase.failed) :
    doStorageCheck { b with pollObs := obs ++ b.pollObs } sc img w =
      doStorageCheck b sc img w := by
  unfold doStorageCheck
  rw [show ({ b with pollObs := obs ++ b.pollObs } : Behavior).pollObs =
        obs ++ b.pollObs from rfl]
  rw [pollTerminal_append obs b.pollObs hobs]
  simp only [createPVC_set_pollObs, createPod_set_pollObs,
    deletePod_set_pollObs, deletePVC_set_pollObs]

/-- Witness for C8: four swallowed observations in front of a successful
cycle. -/
theorem poll_nonterminal_swallowed_witness :
    doStorageCheck
        { bOK with pollObs :=
            [some PodPhase.pending, none, some PodPhase.running,
              some PodPhase.unknown] ++ bOK.pollObs } "sc" "img" w0 =
      doStorageCheck bOK "sc" "img" w0 :=
  poll_nonterminal_swallowed bOK "sc" "img" w0
    [some PodPhase.pending, none, some PodPhase.running, some PodPhase.unknown]
    (by decide)

/-- Deleting a freshly appended resource by name restores the original list,
provided every older resource has a smaller (server-assigned) name. -/
theorem filter_fresh_append (l : List Resource) (n : Nat)
    (labels : List (String × String)) (h : ∀ r ∈ l, r.name < n) :
    (l ++ [Resource.mk n labels]).filter (fun r => r.name != n) = l := by
  rw [List.filter_append]
  have h1 : l.filter (fun r => r.name != n) = l := by
    apply List.filter_eq_self.mpr
    intro r hr
    simp [Nat.ne_of_lt (h r hr)]
  simp [h1]

/-- Well-formedness of a namespace snapshot: every existing resource name is
below the server's fresh-name counter. This always holds for server-assigned
names. -/
def wellNamed (w : World) : Bool :=
  w.pods.all (fun r => r.name < w.nextName) &&
    w.claims.all (fun r => r.name < w.nextName)

theorem wellNamed_pods (w : World) (h : wellNamed w = true) :
    ∀ r ∈ w.pods, r.name < w.nextName := by
  intro r hr
  have := (Bool.and_eq_true_iff.mp h).1
  rw [List.all_eq_true] at this
  simpa using this r hr

theorem wellNamed_claims (w : World) (h : wellNamed w = true) :
    ∀ r ∈ w.claims, r.name < w.nextName := by
  intro r hr
  have := (Bool.and_eq_true_iff.mp h).2
  rw [List.all_eq_true] at this
  simpa using this r hr

/-- C2 (amended): on every completed exit path a delete call is issued,
unconditionally, for every resource the cycle created — the claim (name
`w.nextName`) whenever it was created, i.e. on every outcome but
claimFailed, and the pod (name `w.nextName + 1`) on both terminal phases —
and when those delete calls succeed the namespace is exactly as before the
cycle, so nothing the cycle created remains listable. -/
theorem cycle_cleanup (b : Behavior) (sc img : String) (w : World)
    (o : Outcome) (w2 : World)
    (h : doStorageCheck b sc img w = some (o, w2)) :
    (o ≠ Outcome.claimFailed → (ResKind.claim, w.nextName) ∈ w2.deleteLog) ∧
    ((o = Outcome.podFailed ∨ o = Outcome.podSucceeded) →
      (ResKind.pod, w.nextName + 1) ∈ w2.deleteLog) ∧
    (wellNamed w = true →
      b.deleteClaimFails w.nextName = false →
      b.deletePodFails (w.nextName + 1) = false →
      w2.pods = w.pods ∧ w2.claims = w.claims) := by
  rcases doStorageCheck_shape b sc img w o w2 h with
      ⟨ho, -, hw2⟩ | ⟨ho, -, -, hw2⟩ | ⟨ho, -, -, -, hw2⟩ | ⟨ho, -, -, -, hw2⟩ <;>
    subst ho <;> subst hw2
  · exact ⟨fun hne => absurd rfl hne,
      fun hor => by rcases hor with h1 | h1 <;> exact Outcome.noConfusion h1,
      fun _ _ _ => ⟨rfl, rfl⟩⟩
  · refine ⟨fun _ => by simp,
      fun hor => by rcases hor with h1 | h1 <;> exact Outcome.noConfusion h1,
      ?_⟩
    intro hwn hdc hdp
    refine ⟨by simp [incCheckFailure, wAfterClaim], ?_⟩
    rw [deletePVC_fst_claims_of_ok b _ _ hdc]
    show (w.claims ++ [Resource.mk w.nextName (pvcSpec sc).labels]).filter
        (fun r => r.name != w.nextName) = w.claims
    exact filter_fresh_append _ _ _ (wellNamed_claims w hwn)
  · refine ⟨fun _ => by simp, fun _ => by simp, ?_⟩
    intro hwn hdc hdp
    refine ⟨?_, ?_⟩
    · rw [deletePVC_fst_pods, deletePod_fst_pods_of_ok b _ _ hdp]
      show (w.pods ++ [Resource.mk (w.nextName + 1) (podSpec img w.nextName).labels]).filter
          (fun r => r.name != (w.nextName + 1)) = w.pods
      exact filter_fresh_append _ _ _
        (fun r hr => Nat.lt_succ_of_lt (wellNamed_pods w hwn r hr))
    · rw [deletePVC_fst_claims_of_ok b _ _ hdc, deletePod_fst_claims]
      show (w.claims ++ [Resource.mk w.nextName (pvcSpec sc).labels]).filter
          (fun r => r.name != w.nextName) = w.claims
      exact filter_fresh_append _ _ _ (wellNamed_claims w hwn)
  · refine ⟨fun _ => by simp, fun _ => by simp, ?_⟩
    intro hwn hdc hdp
    refine ⟨?_, ?_⟩
    · rw [deletePVC_fst_pods, deletePod_fst_pods_of_ok b _ _ hdp]
      show (w.pods ++ [Resource.mk (w.nextName + 1) (podSpec img w.nextName).labels]).filter
          (fun r => r.name != (w.nextName + 1)) = w.pods
      exact filter_fresh_append _ _ _
        (fun r hr => Nat.lt_succ_of_lt (wellNamed_pods w hwn r hr))
    · rw [deletePVC_fst_claims_of_ok b _ _ hdc, deletePod_fst_claims]
      show (w.claims ++ [Resource.mk w.nextName (pvcSpec sc).labels]).filter
          (fun r => r.name != w.nextName) = w.claims
      exact filter_fresh_append _ _ _ (wellNamed_claims w hwn)

/-- Witness for the amended C2 at a concrete successful cycle. -/
theorem cycle_cleanup_witness :
    (Outcome.podSucceeded ≠ Outcome.claimFailed →
      (ResKind.claim, w0.nextName) ∈ wOKres.deleteLog) ∧
    ((Outcome.podSucceeded = Outcome.podFailed ∨
        Outcome.podSucceeded = Outcome.podSucceeded) →
      (ResKind.pod, w0.nextName + 1) ∈ wOKres.deleteLog) ∧
    (wellNamed w0 = true →
      bOK.deleteClaimFails w0.nextName = false →
      bOK.deletePodFails (w0.nextName + 1) = false →
      wOKres.pods = w0.pods ∧ wOKres.claims = w0.claims) :=
  cycle_cleanup bOK "sc" "img" w0 Outcome.podSucceeded wOKres (by decide)

/-- A cluster on which every pod delete call fails. -/
def bPodDelFail : Behavior := { bOK with deletePodFails := fun _ => true }

/-- The world left by a successful probe cycle whose pod delete call failed. -/
def wLeak : World :=
  ((doStorageCheck bPodDelFail "sc" "img" w0).getD (Outcome.claimFailed, w0)).2

/-- Counterexample to C2 as stated: the cycle completes (the namespace held
no pod beforehand), yet the pod created during the cycle is still listable
by the ownership label after the cycle returns, because its delete call
failed. -/
theorem cycle_cleanup_counterexample :
    (doStorageCheck bPodDelFail "sc" "img" w0).isSome = true ∧
    w0.pods = [] ∧
    listPods bPodDelFail wLeak = some [Resource.mk 1 [("app", "storage-check")]] := by
  decide

theorem mem_deletePod_fst_pods (b : Behavior) (w : World) (n : Nat)
    (r : Resource) (h : r ∈ ((deletePod b w n).1).pods) : r ∈ w.pods := by
  unfold deletePod at h
  split at h
  · exact h
  · exact (List.mem_filter.mp h).1

theorem mem_deletePVC_fst_claims (b : Behavior) (w : World) (n : Nat)
    (r : Resource) (h : r ∈ ((deletePVC b w n).1).claims) : r ∈ w.claims := by
  unfold deletePVC at h
  split at h
  · exact h
  · exact (List.mem_filter.mp h).1

/-- C3: the ownership label app=storage-check is exactly the selector the
reconciler sweeps with, both submitted specs carry it, and consequently
every resource present after a completed cycle either predates the cycle or
matches the sweep selector. -/
theorem created_resources_carry_label (b : Behavior) (sc img : String)
    (w : World) (o : Outcome) (w2 : World)
    (h : doStorageCheck b sc img w = some (o, w2)) :
    cleanupSelector = ("app", "storage-check") ∧
    cleanupSelector ∈ (pvcSpec sc).labels ∧
    (∀ n, cleanupSelector ∈ (podSpec img n).labels) ∧
    (∀ r ∈ w2.pods, r ∈ w.pods ∨ matchesLabel cleanupSelector r = true) ∧
    (∀ r ∈ w2.claims, r ∈ w.claims ∨ matchesLabel cleanupSelector r = true) := by
  refine ⟨rfl, by simp [cleanupSelector, pvcSpec],
    fun n => by simp [cleanupSelector, podSpec], ?_, ?_⟩ <;>
    rcases doStorageCheck_shape b sc img w o w2 h with
        ⟨-, -, hw2⟩ | ⟨-, -, -, hw2⟩ | ⟨-, -, -, -, hw2⟩ | ⟨-, -, -, -, hw2⟩ <;>
      subst hw2 <;> intro r hr
  · exact Or.inl hr
  · rw [deletePVC_fst_pods] at hr
    exact Or.inl hr
  · rw [deletePVC_fst_pods] at hr
    have hr2 := mem_deletePod_fst_pods _ _ _ _ hr
    have : r ∈ w.pods ++ [Resource.mk (w.nextName + 1) (podSpec img w.nextName).labels] := hr2
    rcases List.mem_append.mp this with h1 | h1
    · exact Or.inl h1
    · right
      rw [List.mem_singleton.mp h1]
      rfl
  · rw [deletePVC_fst_pods] at hr
    have hr2 := mem_deletePod_fst_pods _ _ _ _ hr
    have : r ∈ w.pods ++ [Resource.mk (w.nextName + 1) (podSpec img w.nextName).labels] := hr2
    rcases List.mem_append.mp this with h1 | h1
    · exact Or.inl h1
    · right
      rw [List.mem_singleton.mp h1]
      rfl
  · exact Or.inl hr
  · have hr2 := mem_deletePVC_fst_claims _ _ _ _ hr
    have : r ∈ w.claims ++ [Resource.mk w.nextName (pvcSpec sc).labels] := hr2
    rcases List.mem_append.mp this with h1 | h1
    · exact Or.inl h1
    · right
      rw [List.mem_singleton.mp h1]
      rfl
  · have hr2 := mem_deletePVC_fst_claims _ _ _ _ hr
    rw [deletePod_fst_claims] at hr2
    have : r ∈ w.claims ++ [Resource.mk w.nextName (pvcSpec sc).labels] := hr2
    rcases List.mem_append.mp this with h1 | h1
    · exact Or.inl h1
    · right
      rw [List.mem_singleton.mp h1]
      rfl
  · have hr2 := mem_deletePVC_fst_claims _ _ _ _ hr
    rw [deletePod_fst_claims] at hr2
    have : r ∈ w.claims ++ [Resource.mk w.nextName (pvcSpec sc).labels] := hr2
    rcases List.mem_append.mp this with h1 | h1
    · exact Or.inl h1
    · right
      rw [List.mem_singleton.mp h1]
      rfl

/-- Witness for C3 at a concrete successful cycle. -/
theorem created_resources_carry_label_witness :
    cleanupSelector = ("app", "storage-check") ∧
    cleanupSelector ∈ (pvcSpec "sc").labels ∧
    (∀ n, cleanupSelector ∈ (podSpec "img" n).labels) ∧
    (∀ r ∈ wOKres.pods, r ∈ w0.pods ∨ matchesLabel cleanupSelector r = true) ∧
    (∀ r ∈ wOKres.claims, r ∈ w0.claims ∨ matchesLabel cleanupSelector r = true) :=
  created_resources_carry_label bOK "sc" "img" w0 Outcome.podSucceeded wOKres
    (by decide)

/-! Facts about the two deletion loops of cleanupPreviousChecks. -/

theorem deletePodsLoop_claims (b : Behavior) (items : List Resource) (w : World) :
    (deletePodsLoop b w items).claims = w.claims := by
  induction items generalizing w with
  | nil => rfl
  | cons r rest ih =>
    simp only [deletePodsLoop]
    rw [ih]
    split <;> simp [incCleanupSuccess, incCleanupFailure]

theorem deletePVCsLoop_pods (b : Behavior) (items : List Resource) (w : World) :
    (deletePVCsLoop b w items).pods = w.pods := by
  induction items generalizing w with
  | nil => rfl
  | cons r rest ih =>
    simp only [deletePVCsLoop]
    rw [ih]
    split <;> simp [incCleanupSuccess, incCleanupFailure]

theorem deletePodsLoop_check_metrics (b : Behavior) (items : List Resource)
    (w : World) :
    (deletePodsLoop b w items).metrics.checkSuccess = w.metrics.checkSuccess ∧
    (deletePodsLoop b w items).metrics.checkFailure = w.metrics.checkFailure ∧
    (deletePodsLoop b w items).metrics.durationCount = w.metrics.durationCount := by
  induction items generalizing w with
  | nil => exact ⟨rfl, rfl, rfl⟩
  | cons r rest ih =>
    simp only [deletePodsLoop]
    refine ⟨?_, ?_, ?_⟩
    · rw [(ih _).1]
      split <;> simp [incCleanupSuccess, incCleanupFailure]
    · rw [(ih _).2.1]
      split <;> simp [incCleanupSuccess, incCleanupFailure]
    · rw [(ih _).2.2]
      split <;> simp [incCleanupSuccess, incCleanupFailure]

theorem deletePVCsLoop_check_metrics (b : Behavior) (items : List Resource)
    (w : World) :
    (deletePVCsLoop b w items).metrics.checkSuccess = w.metrics.checkSuccess ∧
    (deletePVCsLoop b w items).metrics.checkFailure = w.metrics.checkFailure ∧
    (deletePVCsLoop b w items).metrics.durationCount = w.metrics.durationCount := by
  induction items generalizing w with
  | nil => exact ⟨rfl, rfl, rfl⟩
  | cons r rest ih =>
    simp only [deletePVCsLoop]
    refine ⟨?_, ?_, ?_⟩
    · rw [(ih _).1]
      split <;> simp [incCleanupSuccess, incCleanupFailure]
    · rw [(ih _).2.1]
      split <;> simp [incCleanupSuccess, incCleanupFailure]
    · rw [(ih _).2.2]
      split <;> simp [incCleanupSuccess, incCleanupFailure]

theorem deletePodsLoop_deleteLog (b : Behavior) (items : List Resource)
    (w : World) :
    (deletePodsLoop b w items).deleteLog =
      w.deleteLog ++ items.map (fun r => (ResKind.pod, r.name)) := by
  induction items generalizing w with
  | nil => simp [deletePodsLoop]
  | cons r rest ih =>
    simp only [deletePodsLoop]
    rw [ih]
    split <;> simp [incCleanupSuccess, incCleanupFailure]

theorem deletePVCsLoop_deleteLog (b : Behavior) (items : List Resource)
    (w : World) :
    (deletePVCsLoop b w items).deleteLog =
      w.deleteLog ++ items.map (fun r => (ResKind.claim, r.name)) := by
  induction items generalizing w with
  | nil => simp [deletePVCsLoop]
  | cons r rest ih =>
    simp only [deletePVCsLoop]
    rw [ih]
    split <;> simp [incCleanupSuccess, incCleanupFailure]

theorem deletePodsLoop_counters_ok (b : Behavior) (items : List Resource)
    (w : World) (hdp : ∀ n, b.deletePodFails n = false) :
    (deletePodsLoop b w items).metrics.cleanupSuccess =
      w.metrics.cleanupSuccess + items.length ∧
    (deletePodsLoop b w items).metrics.cleanupFailure =
      w.metrics.cleanupFailure := by
  induction items generalizing w with
  | nil => exact ⟨rfl, rfl⟩
  | cons r rest ih =>
    have hdel : (deletePod b w r.name).2 = true := by
      unfold deletePod
      rw [hdp r.name]
      simp
    simp only [deletePodsLoop, hdel, if_true]
    refine ⟨?_, ?_⟩
    · rw [(ih _).1]
      simp [incCleanupSuccess]
      omega
    · rw [(ih _).2]
      simp [incCleanupSuccess]

theorem deletePVCsLoop_counters_ok (b : Behavior) (items : List Resource)
    (w : World) (hdc : ∀ n, b.deleteClaimFails n = false) :
    (deletePVCsLoop b w items).metrics.cleanupSuccess =
      w.metrics.cleanupSuccess + items.length ∧
    (deletePVCsLoop b w items).metrics.cleanupFailure =
      w.metrics.cleanupFailure := by
  induction items generalizing w with
  | nil => exact ⟨rfl, rfl⟩
  | cons r rest ih =>
    have hdel : (deletePVC b w r.name).2 = true := by
      unfold deletePVC
      rw [hdc r.name]
      simp
    simp only [deletePVCsLoop, hdel, if_true]
    refine ⟨?_, ?_⟩
    · rw [(ih _).1]
      simp [incCleanupSuccess]
      omega
    · rw [(ih _).2]
      simp [incCleanupSuccess]

theorem mem_deletePodsLoop_pods (b : Behavior) (items : List Resource)
    (w : World) (r : Resource) (hdp : ∀ n, b.deletePodFails n = false)
    (h : r ∈ (deletePodsLoop b w items).pods) :
    r ∈ w.pods ∧ ∀ i ∈ items, r.name ≠ i.name := by
  induction items generalizing w with
  | nil => exact ⟨h, by simp⟩
  | cons i rest ih =>
    have hdel : deletePod b w i.name =
        ({ w with pods := w.pods.filter (fun x => x.name != i.name)
                , deleteLog := w.deleteLog ++ [(ResKind.pod, i.name)] }, true) := by
      unfold deletePod
      rw [hdp i.name]
      simp
    simp only [deletePodsLoop, hdel, if_true] at h
    obtain ⟨h1, h2⟩ := ih _ h
    have h3 : r ∈ w.pods.filter (fun x => x.name != i.name) := h1
    obtain ⟨h4, h5⟩ := List.mem_filter.mp h3
    refine ⟨h4, ?_⟩
    intro j hj
    rcases List.mem_cons.mp hj with hj1 | hj1
    · subst hj1
      simpa using h5
    · exact h2 j hj1

theorem mem_deletePVCsLoop_claims (b : Behavior) (items : List Resource)
    (w : World) (r : Resource) (hdc : ∀ n, b.deleteClaimFails n = false)
    (h : r ∈ (deletePVCsLoop b w items).claims) :
    r ∈ w.claims ∧ ∀ i ∈ items, r.name ≠ i.name := by
  induction items generalizing w with
  | nil => exact ⟨h, by simp⟩
  | cons i rest ih =>
    have hdel : deletePVC b w i.name =
        ({ w with claims := w.claims.filter (fun x => x.name != i.name)
                , deleteLog := w.deleteLog ++ [(ResKind.claim, i.name)] }, true) := by
      unfold deletePVC
      rw [hdc i.name]
      simp
    simp only [deletePVCsLoop, hdel, if_true] at h
    obtain ⟨h1, h2⟩ := ih _ h
    have h3 : r ∈ w.claims.filter (fun x => x.name != i.name) := h1
    obtain ⟨h4, h5⟩ := List.mem_filter.mp h3
    refine ⟨h4, ?_⟩
    intro j hj
    rcases List.mem_cons.mp hj with hj1 | hj1
    · subst hj1
      simpa using h5
    · exact h2 j hj1

/-! Facts about the two sweeps and the whole reconciliation pass. -/

theorem sweepPods_eq (b : Behavior) (w : World) (hlp : b.listPodsFails = false) :
    sweepPods b w =
      deletePodsLoop b w (w.pods.filter (matchesLabel cleanupSelector)) := by
  unfold sweepPods
  simp [listPods, hlp]

theorem sweepClaims_eq (b : Behavior) (w : World)
    (hlc : b.listClaimsFails = false) :
    sweepClaims b w =
      deletePVCsLoop b w (w.claims.filter (matchesLabel cleanupSelector)) := by
  unfold sweepClaims
  simp [listClaims, hlc]

theorem sweepClaims_pods (b : Behavior) (w : World) :
    (sweepClaims b w).pods = w.pods := by
  unfold sweepClaims
  split
  · rfl
  · apply deletePVCsLoop_pods

theorem sweepPods_claims (b : Behavior) (w : World) :
    (sweepPods b w).claims = w.claims := by
  unfold sweepPods
  split
  · rfl
  · apply deletePodsLoop_claims

/-- After a pod sweep whose list and delete calls all succeed, no labeled pod
remains. -/
theorem sweepPods_no_labeled (b : Behavior) (w : World)
    (hlp : b.listPodsFails = false) (hdp : ∀ n, b.deletePodFails n = false) :
    (sweepPods b w).pods.filter (matchesLabel cleanupSelector) = [] := by
  rw [sweepPods_eq b w hlp]
  apply List.filter_eq_nil_iff.mpr
  intro r hr hmatch
  obtain ⟨h1, h2⟩ := mem_deletePodsLoop_pods b _ w r hdp hr
  exact h2 r (List.mem_filter.mpr ⟨h1, hmatch⟩) rfl

/-- After a claim sweep whose list and delete calls all succeed, no labeled
claim remains. -/
theorem sweepClaims_no_labeled (b : Behavior) (w : World)
    (hlc : b.listClaimsFails = false) (hdc : ∀ n, b.deleteClaimFails n = false) :
    (sweepClaims b w).claims.filter (matchesLabel cleanupSelector) = [] := by
  rw [sweepClaims_eq b w hlc]
  apply List.filter_eq_nil_iff.mpr
  intro r hr hmatch
  obtain ⟨h1, h2⟩ := mem_deletePVCsLoop_claims b _ w r hdc hr
  exact h2 r (List.mem_filter.mpr ⟨h1, hmatch⟩) rfl

theorem cleanup_pods_clean (b : Behavior) (w : World)
    (hlp : b.listPodsFails = false) (hdp : ∀ n, b.deletePodFails n = false) :
    (cleanupPreviousChecks b w).pods.filter (matchesLabel cleanupSelector) = [] := by
  unfold cleanupPreviousChecks
  rw [sweepClaims_pods]
  exact sweepPods_no_labeled b w hlp hdp

theorem cleanup_claims_clean (b : Behavior) (w : World)
    (hlc : b.listClaimsFails = false) (hdc : ∀ n, b.deleteClaimFails n = false) :
    (cleanupPreviousChecks b w).claims.filter (matchesLabel cleanupSelector) = [] := by
  unfold cleanupPreviousChecks
  exact sweepClaims_no_labeled b _ hlc hdc

/-- A reconciliation pass on a namespace with no labeled resource does
nothing at all. -/
theorem cleanup_clean_world (b : Behavior) (w : World)
    (hp : w.pods.filter (matchesLabel cleanupSelector) = [])
    (hc : w.claims.filter (matchesLabel cleanupSelector) = []) :
    cleanupPreviousChecks b w = w := by
  have h1 : sweepPods b w = w := by
    unfold sweepPods
    rcases hl : listPods b w with - | items
    · rfl
    · have hitems : items = [] := by
        unfold listPods at hl
        split at hl
        · exact Option.noConfusion hl
        · injection hl with hl2
          rw [hp] at hl2
          exact hl2.symm
      subst hitems
      rfl
  have h2 : sweepClaims b w = w := by
    unfold sweepClaims
    rcases hl : listClaims b w with - | items
    · rfl
    · have hitems : items = [] := by
        unfold listClaims at hl
        split at hl
        · exact Option.noConfusion hl
        · injection hl with hl2
          rw [hc] at hl2
          exact hl2.symm
      subst hitems
      rfl
  unfold cleanupPreviousChecks
  rw [h1, h2]

/-- C4 (amended): when the first pass's list calls succeed and every delete
it issues succeeds, a second reconciliation pass run immediately afterwards
is a no-op: it changes nothing — in particular it issues zero delete calls
and moves neither cleanup counter. -/
theorem cleanup_idempotent (b : Behavior) (w : World)
    (hlp : b.listPodsFails = false) (hlc : b.listClaimsFails = false)
    (hdp : ∀ n, b.deletePodFails n = false)
    (hdc : ∀ n, b.deleteClaimFails n = false) :
    cleanupPreviousChecks b (cleanupPreviousChecks b w) =
      cleanupPreviousChecks b w :=
  cleanup_clean_world b _ (cleanup_pods_clean b w hlp hdp)
    (cleanup_claims_clean b w hlc hdc)

/-- A namespace seeded with labeled leftovers: one labeled pod, one
unlabeled pod, one labeled claim. -/
def wSeed : World :=
  { pods := [Resource.mk 5 [("app", "storage-check")],
             Resource.mk 6 [("app", "other")]]
  , claims := [Resource.mk 7 [("app", "storage-check")]]
  , nextName := 10
  , metrics := m0
  , deleteLog := [] }

/-- Witness for the amended C4 on the seeded namespace with a cooperative
cluster. -/
theorem cleanup_idempotent_witness :
    cleanupPreviousChecks bOK (cleanupPreviousChecks bOK wSeed) =
      cleanupPreviousChecks bOK wSeed :=
  cleanup_idempotent bOK wSeed (by decide) (by decide)
    (fun _ => rfl) (fun _ => rfl)

/-- The first reconciliation pass over `wSeed` when pod deletes fail. -/
def wCleanOnce : World := cleanupPreviousChecks bPodDelFail wSeed

/-- The second reconciliation pass, immediately after the first. -/
def wCleanTwice : World := cleanupPreviousChecks bPodDelFail wCleanOnce

/-- Counterexample to C4 as stated: with no resource created in between, the
second pass still issues a delete call (for the labeled pod whose deletion
failed in the first pass) and increments the cleanup-failure counter again.
-/
theorem cleanup_idempotent_counterexample :
    wCleanTwice.deleteLog.length = wCleanOnce.deleteLog.length + 1 ∧
    wCleanTwice.metrics.cleanupFailure =
      wCleanOnce.metrics.cleanupFailure + 1 := by
  decide

/-- C5: when both list calls succeed, one reconciliation pass issues exactly
one delete call per matched resource — all N matched pods then all M matched
claims, with no short-circuit on failed deletes — and when additionally no
delete call errors, the cleanup-success counter rises by exactly N+M, the
cleanup-failure counter is unchanged, and zero matching resources remain
listable. -/
theorem cleanup_completeness (b : Behavior) (w : World)
    (hlp : b.listPodsFails = false) (hlc : b.listClaimsFails = false) :
    (cleanupPreviousChecks b w).deleteLog =
      w.deleteLog ++
        (w.pods.filter (matchesLabel cleanupSelector)).map
          (fun r => (ResKind.pod, r.name)) ++
        (w.claims.filter (matchesLabel cleanupSelector)).map
          (fun r => (ResKind.claim, r.name)) ∧
    ((∀ n, b.deletePodFails n = false) → (∀ n, b.deleteClaimFails n = false) →
      (cleanupPreviousChecks b w).metrics.cleanupSuccess =
        w.metrics.cleanupSuccess +
          ((w.pods.filter (matchesLabel cleanupSelector)).length +
            (w.claims.filter (matchesLabel cleanupSelector)).length) ∧
      (cleanupPreviousChecks b w).metrics.cleanupFailure =
        w.metrics.cleanupFailure ∧
      listPods b (cleanupPreviousChecks b w) = some [] ∧
      listClaims b (cleanupPreviousChecks b w) = some []) := by
  have hrw : cleanupPreviousChecks b w =
      deletePVCsLoop b
        (deletePodsLoop b w (w.pods.filter (matchesLabel cleanupSelector)))
        (w.claims.filter (matchesLabel cleanupSelector)) := by
    unfold cleanupPreviousChecks
    rw [sweepPods_eq b w hlp, sweepClaims_eq b _ hlc, deletePodsLoop_claims]
  constructor
  · rw [hrw, deletePVCsLoop_deleteLog, deletePodsLoop_deleteLog]
  · intro hdp hdc
    refine ⟨?_, ?_, ?_, ?_⟩
    · rw [hrw, (deletePVCsLoop_counters_ok b _ _ hdc).1,
        (deletePodsLoop_counters_ok b _ _ hdp).1]
      omega
    · rw [hrw, (deletePVCsLoop_counters_ok b _ _ hdc).2,
        (deletePodsLoop_counters_ok b _ _ hdp).2]
    · simp [listPods, hlp, cleanup_pods_clean b w hlp hdp]
    · simp [listClaims, hlc, cleanup_claims_clean b w hlc hdc]

/-- A namespace seeded with two labeled pods, two labeled claims, and one
unlabeled resource of each kind. -/
def wSweep : World :=
  { pods := [Resource.mk 1 [("app", "storage-check")],
             Resource.mk 2 [("app", "storage-check")],
             Resource.mk 3 [("app", "other")]]
  , claims := [Resource.mk 4 [("app", "storage-check")],
               Resource.mk 5 [("run", "storage-check")],
               Resource.mk 6 [("app", "storage-check")]]
  , nextName := 10
  , metrics := m0
  , deleteLog := [] }

/-- Witness for C5 on a namespace with 2 labeled pods and 2 labeled claims.
-/
theorem cleanup_completeness_witness :
    (cleanupPreviousChecks bOK wSweep).deleteLog =
      wSweep.deleteLog ++
        (wSweep.pods.filter (matchesLabel cleanupSelector)).map
          (fun r => (ResKind.pod, r.name)) ++
        (wSweep.claims.filter (matchesLabel cleanupSelector)).map
          (fun r => (ResKind.claim, r.name)) ∧
    ((∀ n, bOK.deletePodFails n = false) →
      (∀ n, bOK.deleteClaimFails n = false) →
      (cleanupPreviousChecks bOK wSweep).metrics.cleanupSuccess =
        wSweep.metrics.cleanupSuccess +
          ((wSweep.pods.filter (matchesLabel cleanupSelector)).length +
            (wSweep.claims.filter (matchesLabel cleanupSelector)).length) ∧
      (cleanupPreviousChecks bOK wSweep).metrics.cleanupFailure =
        wSweep.metrics.cleanupFailure ∧
      listPods bOK (cleanupPreviousChecks bOK wSweep) = some [] ∧
      listClaims bOK (cleanupPreviousChecks bOK wSweep) = some []) :=
  cleanup_completeness bOK wSweep (by decide) (by decide)

/-- C9: a failed list call skips that resource kind silently for the pass —
the whole pass degenerates to the other kind's sweep alone, so no delete of
the skipped kind is issued and no counter moves on its account, while the
other kind is still swept; moreover the surviving sweep never touches the
skipped kind's resources and only ever logs deletes of its own kind. -/
theorem list_error_skips_kind (b : Behavior) (w : World) :
    (b.listPodsFails = true →
      cleanupPreviousChecks b w = sweepClaims b w ∧
      (sweepClaims b w).pods = w.pods ∧
      ∀ e ∈ (sweepClaims b w).deleteLog,
        e ∈ w.deleteLog ∨ e.1 = ResKind.claim) ∧
    (b.listClaimsFails = true →
      cleanupPreviousChecks b w = sweepPods b w ∧
      (sweepPods b w).claims = w.claims ∧
      ∀ e ∈ (sweepPods b w).deleteLog,
        e ∈ w.deleteLog ∨ e.1 = ResKind.pod) := by
  constructor
  · intro h
    have hskip : sweepPods b w = w := by
      unfold sweepPods
      simp [listPods, h]
    refine ⟨by unfold cleanupPreviousChecks; rw [hskip], sweepClaims_pods b w, ?_⟩
    intro e he
    unfold sweepClaims at he
    rcases hl : listClaims b w with - | items
    · rw [hl] at he
      exact Or.inl he
    · rw [hl, deletePVCsLoop_deleteLog] at he
      rcases List.mem_append.mp he with h1 | h1
      · exact Or.inl h1
      · obtain ⟨a, -, ha⟩ := List.mem_map.mp h1
        rw [← ha]
        exact Or.inr rfl
  · intro h
    have hskip : ∀ v : World, sweepClaims b v = v := by
      intro v
      unfold sweepClaims
      simp [listClaims, h]
    refine ⟨by unfold cleanupPreviousChecks; rw [hskip], sweepPods_claims b w, ?_⟩
    intro e he
    unfold sweepPods at he
    rcases hl : listPods b w with - | items
    · rw [hl] at he
      exact Or.inl he
    · rw [hl, deletePodsLoop_deleteLog] at he
      rcases List.mem_append.mp he with h1 | h1
      · exact Or.inl h1
      · obtain ⟨a, -, ha⟩ := List.mem_map.mp h1
        rw [← ha]
        exact Or.inr rfl

/-- A cluster whose pod list call fails. -/
def bListPodsFail : Behavior := { bOK with listPodsFails := true }

/-- Witness for C9: with the pod list failing, the pass over the seeded
namespace is exactly the claim sweep. -/
theorem list_error_skips_kind_witness :
    cleanupPreviousChecks bListPodsFail wSeed = sweepClaims bListPodsFail wSeed ∧
    (sweepClaims bListPodsFail wSeed).pods = wSeed.pods ∧
    ∀ e ∈ (sweepClaims bListPodsFail wSeed).deleteLog,
      e ∈ wSeed.deleteLog ∨ e.1 = ResKind.claim :=
  (list_error_skips_kind bListPodsFail wSeed).1 (by decide)

/-- C10: the two operations touch disjoint metric families —
cleanupPreviousChecks never moves the check counters or the duration
histogram, and doStorageCheck never moves the cleanup counters. -/
theorem metric_families_disjoint (b : Behavior) (sc img : String) (w : World) :
    ((cleanupPreviousChecks b w).metrics.checkSuccess = w.metrics.checkSuccess ∧
      (cleanupPreviousChecks b w).metrics.checkFailure = w.metrics.checkFailure ∧
      (cleanupPreviousChecks b w).metrics.durationCount =
        w.metrics.durationCount) ∧
    ∀ o w2, doStorageCheck b sc img w = some (o, w2) →
      w2.metrics.cleanupSuccess = w.metrics.cleanupSuccess ∧
      w2.metrics.cleanupFailure = w.metrics.cleanupFailure := by
  constructor
  · have h1 : ∀ v : World,
        (sweepPods b v).metrics.checkSuccess = v.metrics.checkSuccess ∧
        (sweepPods b v).metrics.checkFailure = v.metrics.checkFailure ∧
        (sweepPods b v).metrics.durationCount = v.metrics.durationCount := by
      intro v
      unfold sweepPods
      split
      · exact ⟨rfl, rfl, rfl⟩
      · apply deletePodsLoop_check_metrics
    have h2 : ∀ v : World,
        (sweepClaims b v).metrics.checkSuccess = v.metrics.checkSuccess ∧
        (sweepClaims b v).metrics.checkFailure = v.metrics.checkFailure ∧
        (sweepClaims b v).metrics.durationCount = v.metrics.durationCount := by
      intro v
      unfold sweepClaims
      split
      · exact ⟨rfl, rfl, rfl⟩
      · apply deletePVCsLoop_check_metrics
    unfold cleanupPreviousChecks
    exact ⟨((h2 _).1).trans (h1 w).1,
      ((h2 _).2.1).trans (h1 w).2.1,
      ((h2 _).2.2).trans (h1 w).2.2⟩
  · intro o w2 h
    rcases doStorageCheck_shape b sc img w o w2 h with
        ⟨-, -, hw2⟩ | ⟨-, -, -, hw2⟩ | ⟨-, -, -, -, hw2⟩ | ⟨-, -, -, -, hw2⟩ <;>
      subst hw2 <;>
      simp [incCheckFailure, incCheckSuccess, observeDuration,
        wAfterClaim, wAfterPod]

/-- Witness for C10: the cleanup part on the seeded namespace and the
doStorageCheck part on a concrete successful cycle. -/
theorem metric_families_disjoint_witness :
    ((cleanupPreviousChecks bOK wSeed).metrics.checkSuccess =
        wSeed.metrics.checkSuccess ∧
      (cleanupPreviousChecks bOK wSeed).metrics.checkFailure =
        wSeed.metrics.checkFailure ∧
      (cleanupPreviousChecks bOK wSeed).metrics.durationCount =
        wSeed.metrics.durationCount) ∧
    (wOKres.metrics.cleanupSuccess = w0.metrics.cleanupSuccess ∧
      wOKres.metrics.cleanupFailure = w0.metrics.cleanupFailure) :=
  ⟨(metric_families_disjoint bOK "sc" "img" wSeed).1,
    (metric_families_disjoint bOK "sc" "img" w0).2 Outcome.podSucceeded wOKres
      (by decide)⟩

end StorageCheck
